import Mathlib

/-!
Verification of the GetWeather repository's core logic (get_weather2.py and
get_weather.py): the US-EPA AQI derivation (breakpoint tables, piecewise
linear interpolation, sentinel handling, multi-pollutant aggregation,
category thresholds), the wind-direction compass bucketing of both script
variants, and the append-only persistence step.

Concentrations and degree values are modelled as rationals (the Python code
manipulates real-valued readings), sub-indices as integers.  Points where
the Python code could raise an exception (division by zero inside the
interpolation, `max` over an empty list) are modelled in the `Except`
monad, so that totality of the engine is a provable statement rather than
an artifact of the embedding.
-/

attribute [local semireducible] Rat.ofScientific Rat.mul Rat.inv Rat.add Rat.sub

/-- One row of a US EPA breakpoint table: `(C_Lo, C_Hi, I_Lo, I_Hi)` as in
the tuples of `aqi_breakpoints` in get_weather2.py. -/
structure Bkpt where
  cLo : ℚ
  cHi : ℚ
  iLo : ℤ
  iHi : ℤ
deriving DecidableEq, Repr

/-- Python's built-in `round` on a real value: nearest integer, ties go to
the even integer (banker's rounding). -/
def pyRound (x : ℚ) : ℤ :=
  let f := ⌊x⌋
  let r := x - (f : ℚ)
  if r < 1/2 then f
  else if 1/2 < r then f + 1
  else if f % 2 = 0 then f else f + 1

/-- Python's `/` on reals: raises `ZeroDivisionError` on a zero divisor. -/
def safeDiv (a b : ℚ) : Except String ℚ :=
  if b = 0 then .error "ZeroDivisionError" else .ok (a / b)

/-- The `for C_Lo, C_Hi, I_Lo, I_Hi in breakpoints:` loop of
`calculate_sub_aqi` in get_weather2.py.  `lastCHi` is the Python
expression `breakpoints[-1][1]`, evaluated on the full table. -/
def subAqiLoop (lastCHi : ℚ) (v : ℚ) : List Bkpt → Except String ℤ
  | [] => .ok 0
  | b :: rest =>
    if b.cLo ≤ v ∧ v ≤ b.cHi then
      if b.cHi = b.cLo then .ok b.iLo
      else do
        let slope ← safeDiv ((b.iHi : ℚ) - (b.iLo : ℚ)) (b.cHi - b.cLo)
        .ok (pyRound (slope * (v - b.cLo) + (b.iLo : ℚ)))
    else if b.cHi < v ∧ b.cHi = lastCHi then .ok 501
    else subAqiLoop lastCHi v rest

/-- Pure shadow of `subAqiLoop`: identical control flow, with the division
written with total rational division (the branch guard `C_Hi == C_Lo`
makes the two agree, proved in `subAqiLoop_eq_pure`). -/
def subAqiLoopPure (lastCHi : ℚ) (v : ℚ) : List Bkpt → ℤ
  | [] => 0
  | b :: rest =>
    if b.cLo ≤ v ∧ v ≤ b.cHi then
      if b.cHi = b.cLo then b.iLo
      else pyRound ((((b.iHi : ℚ) - (b.iLo : ℚ)) / (b.cHi - b.cLo)) * (v - b.cLo) + (b.iLo : ℚ))
    else if b.cHi < v ∧ b.cHi = lastCHi then 501
    else subAqiLoopPure lastCHi v rest

/-- The `aqi_breakpoints` dictionary of `calculate_aqi_from_data`
(get_weather2.py lines 115-145); `.get` on an unknown key gives `none`. -/
def aqi_breakpoints (ty : String) : Option (List Bkpt) :=
  match ty with
  | "pm2_5" => some [
      ⟨0.0, 12.0, 0, 50⟩, ⟨12.1, 35.4, 51, 100⟩, ⟨35.5, 55.4, 101, 150⟩,
      ⟨55.5, 150.4, 151, 200⟩, ⟨150.5, 250.4, 201, 300⟩,
      ⟨250.5, 350.4, 301, 400⟩, ⟨350.5, 500.4, 401, 500⟩]
  | "pm10" => some [
      ⟨0, 54, 0, 50⟩, ⟨55, 154, 51, 100⟩, ⟨155, 254, 101, 150⟩,
      ⟨255, 354, 151, 200⟩, ⟨355, 424, 201, 300⟩,
      ⟨425, 504, 301, 400⟩, ⟨505, 604, 401, 500⟩]
  | "carbon_monoxide" => some [
      ⟨0.0, 4.4, 0, 50⟩, ⟨4.5, 9.4, 51, 100⟩, ⟨9.5, 12.4, 101, 150⟩,
      ⟨12.5, 15.4, 151, 200⟩, ⟨15.5, 30.4, 201, 300⟩,
      ⟨30.5, 40.4, 301, 400⟩, ⟨40.5, 50.4, 401, 500⟩]
  | "nitrogen_dioxide" => some [
      ⟨0, 53, 0, 50⟩, ⟨54, 100, 51, 100⟩, ⟨101, 360, 101, 150⟩,
      ⟨361, 649, 151, 200⟩, ⟨650, 1249, 201, 300⟩,
      ⟨1250, 1649, 301, 400⟩, ⟨1650, 2049, 401, 500⟩]
  | "sulphur_dioxide" => some [
      ⟨0, 35, 0, 50⟩, ⟨36, 75, 51, 100⟩, ⟨76, 185, 101, 150⟩,
      ⟨186, 304, 151, 200⟩, ⟨305, 604, 201, 300⟩,
      ⟨605, 804, 301, 400⟩, ⟨805, 1004, 401, 500⟩]
  | "ozone" => some [
      ⟨0, 54, 0, 50⟩, ⟨55, 70, 51, 100⟩, ⟨71, 85, 101, 150⟩,
      ⟨86, 105, 151, 200⟩, ⟨106, 200, 201, 300⟩]
  | _ => none

/-- The six dictionary keys of `aqi_breakpoints`. -/
def speciesKeys : List String :=
  ["pm2_5", "pm10", "carbon_monoxide", "nitrogen_dioxide", "sulphur_dioxide", "ozone"]

/-- `calculate_sub_aqi` of get_weather2.py (lines 155-172): `none`
concentration and unknown pollutant type both give 0; otherwise the
breakpoint-range loop runs on the species' table. -/
def calculate_sub_aqi (pollutant_value : Option ℚ) (pollutant_type : String) :
    Except String ℤ :=
  match pollutant_value with
  | none => .ok 0
  | some v =>
    match aqi_breakpoints pollutant_type with
    | none => .ok 0
    | some [] => .ok 0
    | some (b :: rest) =>
      subAqiLoop ((b :: rest).getLastD b).cHi v (b :: rest)

/-- Pure shadow of `calculate_sub_aqi`. -/
def calculate_sub_aqi_pure (pollutant_value : Option ℚ) (pollutant_type : String) : ℤ :=
  match pollutant_value with
  | none => 0
  | some v =>
    match aqi_breakpoints pollutant_type with
    | none => 0
    | some [] => 0
    | some (b :: rest) =>
      subAqiLoopPure ((b :: rest).getLastD b).cHi v (b :: rest)

theorem subAqiLoop_eq_pure (lastCHi v : ℚ) (bps : List Bkpt) :
    subAqiLoop lastCHi v bps = .ok (subAqiLoopPure lastCHi v bps) := by
  induction bps with
  | nil => rfl
  | cons b rest ih =>
    simp only [subAqiLoop, subAqiLoopPure]
    by_cases hin : b.cLo ≤ v ∧ v ≤ b.cHi
    · rw [if_pos hin, if_pos hin]
      by_cases hdeg : b.cHi = b.cLo
      · rw [if_pos hdeg, if_pos hdeg]
      · rw [if_neg hdeg, if_neg hdeg]
        have hne : b.cHi - b.cLo ≠ 0 := sub_ne_zero.mpr hdeg
        simp only [safeDiv, if_neg hne]
        rfl
    · rw [if_neg hin, if_neg hin]
      by_cases hgt : b.cHi < v ∧ b.cHi = lastCHi
      · rw [if_pos hgt, if_pos hgt]
      · rw [if_neg hgt, if_neg hgt]
        exact ih

theorem calculate_sub_aqi_eq_pure (v? : Option ℚ) (ty : String) :
    calculate_sub_aqi v? ty = .ok (calculate_sub_aqi_pure v? ty) := by
  unfold calculate_sub_aqi calculate_sub_aqi_pure
  match v? with
  | none => rfl
  | some v =>
    match aqi_breakpoints ty with
    | none => rfl
    | some [] => rfl
    | some (b :: rest) => exact subAqiLoop_eq_pure _ v _

/-- `get_aqi_category` of get_weather2.py (lines 147-153). -/
def get_aqi_category (aqi_value : ℤ) : String :=
  if aqi_value ≥ 301 then "Hazardous"
  else if aqi_value ≥ 201 then "Very Unhealthy"
  else if aqi_value ≥ 151 then "Unhealthy"
  else if aqi_value ≥ 101 then "Unhealthy for Sensitive Groups"
  else if aqi_value ≥ 51 then "Moderate"
  else "Good"

/-- The `current` object of the air-quality JSON response: each of the six
pollutant concentrations (µg/m³) may be absent (`current.get(...)` is
`None` for a missing or null field). -/
structure AirQualityCurrent where
  pm2_5 : Option ℚ
  carbon_monoxide : Option ℚ
  nitrogen_dioxide : Option ℚ
  sulphur_dioxide : Option ℚ
  ozone : Option ℚ
  pm10 : Option ℚ
deriving DecidableEq, Repr

/-- `calculate_aqi_from_data` of get_weather2.py (lines 98-196): each
present reading is unit-converted and its sub-index appended to
`sub_aqis`, in source order pm2_5, pm10, CO, NO2, SO2, O3; the result is
`max(sub_aqis) if sub_aqis else 0` with its category. -/
def calculate_aqi_from_data (d : AirQualityCurrent) : Except String (ℤ × String) := do
  let l1 : List ℤ ← match d.pm2_5 with
    | none => pure []
    | some v => do
      let s ← calculate_sub_aqi (some v) "pm2_5"
      pure [s]
  let l2 : List ℤ ← match d.pm10 with
    | none => pure []
    | some v => do
      let s ← calculate_sub_aqi (some v) "pm10"
      pure [s]
  let l3 : List ℤ ← match d.carbon_monoxide with
    | none => pure []
    | some v => do
      let s ← calculate_sub_aqi (some (v * (0.873 / 1000))) "carbon_monoxide"
      pure [s]
  let l4 : List ℤ ← match d.nitrogen_dioxide with
    | none => pure []
    | some v => do
      let s ← calculate_sub_aqi (some (v * 0.532)) "nitrogen_dioxide"
      pure [s]
  let l5 : List ℤ ← match d.sulphur_dioxide with
    | none => pure []
    | some v => do
      let s ← calculate_sub_aqi (some (v * 0.375)) "sulphur_dioxide"
      pure [s]
  let l6 : List ℤ ← match d.ozone with
    | none => pure []
    | some v => do
      let s ← calculate_sub_aqi (some (v * 0.5)) "ozone"
      pure [s]
  let sub_aqis := l1 ++ l2 ++ l3 ++ l4 ++ l5 ++ l6
  let final_aqi : ℤ := match sub_aqis with
    | [] => 0
    | a :: rest => rest.foldl max a
  pure (final_aqi, get_aqi_category final_aqi)

/-- Python's `max` on a nonempty list, and 0 on the empty list: the
expression `max(sub_aqis) if sub_aqis else 0`. -/
def listMax0 (l : List ℤ) : ℤ :=
  match l with
  | [] => 0
  | a :: rest => rest.foldl max a

/-- The list of sub-indices of the present readings, in the aggregation
order of `calculate_aqi_from_data`, each computed from the unit-converted
concentration. -/
def presentSubIndices (d : AirQualityCurrent) : List ℤ :=
  (match d.pm2_5 with
    | none => []
    | some v => [calculate_sub_aqi_pure (some v) "pm2_5"]) ++
  (match d.pm10 with
    | none => []
    | some v => [calculate_sub_aqi_pure (some v) "pm10"]) ++
  (match d.carbon_monoxide with
    | none => []
    | some v => [calculate_sub_aqi_pure (some (v * (0.873 / 1000))) "carbon_monoxide"]) ++
  (match d.nitrogen_dioxide with
    | none => []
    | some v => [calculate_sub_aqi_pure (some (v * 0.532)) "nitrogen_dioxide"]) ++
  (match d.sulphur_dioxide with
    | none => []
    | some v => [calculate_sub_aqi_pure (some (v * 0.375)) "sulphur_dioxide"]) ++
  (match d.ozone with
    | none => []
    | some v => [calculate_sub_aqi_pure (some (v * 0.5)) "ozone"])

theorem ok_bind {α β : Type} (a : α) (f : α → Except String β) :
    (Except.ok a >>= f : Except String β) = f a := rfl

theorem calculate_aqi_from_data_eq (d : AirQualityCurrent) :
    calculate_aqi_from_data d =
      .ok (listMax0 (presentSubIndices d),
           get_aqi_category (listMax0 (presentSubIndices d))) := by
  obtain ⟨p25, co, no2, so2, o3, p10⟩ := d
  cases p25 <;> cases co <;> cases no2 <;> cases so2 <;> cases o3 <;> cases p10 <;>
    simp only [calculate_aqi_from_data, presentSubIndices, calculate_sub_aqi_eq_pure,
      ok_bind, listMax0, List.nil_append, List.append_nil, List.cons_append] <;>
    rfl

theorem foldl_max_init_le (a : ℤ) (l : List ℤ) : a ≤ l.foldl max a := by
  induction l generalizing a with
  | nil => exact le_refl a
  | cons b t ih => exact le_trans (le_max_left a b) (ih (max a b))

theorem le_foldl_max (x a : ℤ) (l : List ℤ) (h : x ∈ l) : x ≤ l.foldl max a := by
  induction l generalizing a with
  | nil => cases h
  | cons b t ih =>
    rcases List.mem_cons.mp h with h1 | h1
    · subst h1
      exact le_trans (le_max_right a x) (foldl_max_init_le _ t)
    · exact ih (max a b) h1

theorem foldl_max_mem (a : ℤ) (l : List ℤ) : l.foldl max a ∈ a :: l := by
  induction l generalizing a with
  | nil => simp [List.foldl]
  | cons b t ih =>
    have h := ih (max a b)
    rcases List.mem_cons.mp h with h1 | h1
    · rcases max_choice a b with h2 | h2
      · rw [List.foldl_cons, h1, h2]
        simp
      · rw [List.foldl_cons, h1, h2]
        simp
    · simp [List.mem_cons, h1]

theorem le_listMax0 (x : ℤ) (l : List ℤ) (h : x ∈ l) : x ≤ listMax0 l := by
  match l with
  | [] => cases h
  | a :: rest =>
    rcases List.mem_cons.mp h with h1 | h1
    · subst h1
      exact foldl_max_init_le x rest
    · exact le_foldl_max x a rest h1

theorem listMax0_mem (l : List ℤ) (h : l ≠ []) : listMax0 l ∈ l := by
  match l with
  | [] => exact absurd rfl h
  | a :: rest => exact foldl_max_mem a rest

deriving instance DecidableEq for Except

/-- C4: `calculate_aqi_from_data` is total over its declared input domain:
for every well-typed input (each pollutant concentration present or
absent) it returns a result, and no error branch (`Except.error`) is
reachable. -/
theorem spec_c4_total (d : AirQualityCurrent) :
    ∃ r : ℤ × String, calculate_aqi_from_data d = Except.ok r :=
  ⟨_, calculate_aqi_from_data_eq d⟩

/-- C3: the composite result is the maximum of the sub-indices of the
present readings (0 when no reading is present), paired with the category
given by the fixed thresholds (≥301 Hazardous, ≥201 Very Unhealthy, ≥151
Unhealthy, ≥101 Unhealthy for Sensitive Groups, ≥51 Moderate, else Good);
a fully absent pollutant set yields `(0, "Good")`. -/
theorem spec_c3_composite :
    (∀ d : AirQualityCurrent,
      calculate_aqi_from_data d =
        .ok (listMax0 (presentSubIndices d),
             get_aqi_category (listMax0 (presentSubIndices d)))) ∧
    (∀ d : AirQualityCurrent, ∀ x ∈ presentSubIndices d,
      x ≤ listMax0 (presentSubIndices d)) ∧
    (∀ d : AirQualityCurrent, presentSubIndices d ≠ [] →
      listMax0 (presentSubIndices d) ∈ presentSubIndices d) ∧
    calculate_aqi_from_data ⟨none, none, none, none, none, none⟩ = .ok (0, "Good") ∧
    (∀ n : ℤ,
      (301 ≤ n → get_aqi_category n = "Hazardous") ∧
      (201 ≤ n → n < 301 → get_aqi_category n = "Very Unhealthy") ∧
      (151 ≤ n → n < 201 → get_aqi_category n = "Unhealthy") ∧
      (101 ≤ n → n < 151 → get_aqi_category n = "Unhealthy for Sensitive Groups") ∧
      (51 ≤ n → n < 101 → get_aqi_category n = "Moderate") ∧
      (n < 51 → get_aqi_category n = "Good")) := by
  refine ⟨calculate_aqi_from_data_eq, ?_, ?_, rfl, ?_⟩
  · intro d x hx
    exact le_listMax0 x _ hx
  · intro d hd
    exact listMax0_mem _ hd
  · intro n
    refine ⟨?_, ?_, ?_, ?_, ?_, ?_⟩
    · intro h1
      simp only [get_aqi_category]
      rw [if_pos (by omega)]
    · intro h1 h2
      simp only [get_aqi_category]
      rw [if_neg (by omega), if_pos (by omega)]
    · intro h1 h2
      simp only [get_aqi_category]
      rw [if_neg (by omega), if_neg (by omega), if_pos (by omega)]
    · intro h1 h2
      simp only [get_aqi_category]
      rw [if_neg (by omega), if_neg (by omega), if_neg (by omega), if_pos (by omega)]
    · intro h1 h2
      simp only [get_aqi_category]
      rw [if_neg (by omega), if_neg (by omega), if_neg (by omega), if_neg (by omega),
        if_pos (by omega)]
    · intro h1
      simp only [get_aqi_category]
      rw [if_neg (by omega), if_neg (by omega), if_neg (by omega), if_neg (by omega),
        if_neg (by omega)]


/-- Witness for C3 at a concrete input: a single present PM2.5 reading of
10 µg/m³, and the category of 250. -/
theorem spec_c3_composite_witness :
    ((42 : ℤ) ≤ listMax0 (presentSubIndices ⟨some 10, none, none, none, none, none⟩)) ∧
    listMax0 (presentSubIndices ⟨some 10, none, none, none, none, none⟩) ∈
      presentSubIndices ⟨some 10, none, none, none, none, none⟩ ∧
    get_aqi_category 250 = "Very Unhealthy" :=
  ⟨spec_c3_composite.2.1 ⟨some 10, none, none, none, none, none⟩ 42 (by decide),
   spec_c3_composite.2.2.1 ⟨some 10, none, none, none, none, none⟩ (by decide),
   (spec_c3_composite.2.2.2.2 250).2.1 (by decide) (by decide)⟩

/-- C1: for every species' breakpoint table and every entry of it, the
sub-index at a concentration exactly `C_Lo` is exactly `I_Lo`, and at
exactly `C_Hi` it is exactly `I_Hi`. -/
theorem spec_c1_endpoints :
    ∀ ty ∈ speciesKeys, ∀ e ∈ (aqi_breakpoints ty).getD [],
      calculate_sub_aqi (some e.cLo) ty = .ok e.iLo ∧
      calculate_sub_aqi (some e.cHi) ty = .ok e.iHi := by decide

/-- Witness for C1 at the second PM2.5 entry: concentration 12.1 (its
lower bound) yields exactly 51. -/
theorem spec_c1_endpoints_witness :
    calculate_sub_aqi (some (12.1 : ℚ)) "pm2_5" = .ok 51 :=
  (spec_c1_endpoints "pm2_5" (by decide) ⟨12.1, 35.4, 51, 100⟩ (by decide)).1

theorem subAqiLoop_miss (lastCHi v : ℚ) :
    ∀ bps : List Bkpt,
      (∀ e ∈ bps, (v < e.cLo ∧ v ≤ e.cHi) ∨ (e.cHi < v ∧ e.cHi ≠ lastCHi)) →
      subAqiLoop lastCHi v bps = .ok 0 := by
  intro bps
  induction bps with
  | nil => intro _; rfl
  | cons b rest ih =>
    intro h
    have hb := h b (List.mem_cons_self b rest)
    simp only [subAqiLoop]
    rcases hb with ⟨h1, h2⟩ | ⟨h1, h2⟩
    · rw [if_neg (fun hc => absurd hc.1 (not_le.mpr h1)),
        if_neg (fun hc => absurd hc.1 (not_lt.mpr h2))]
      exact ih (fun e he => h e (List.mem_cons_of_mem b he))
    · rw [if_neg (fun hc => absurd hc.2 (not_le.mpr h1)),
        if_neg (fun hc => h2 hc.2)]
      exact ih (fun e he => h e (List.mem_cons_of_mem b he))

theorem subAqiLoop_above (lastCHi v : ℚ) :
    ∀ bps : List Bkpt,
      (∀ e ∈ bps, e.cHi ≤ lastCHi) →
      (∃ e ∈ bps, e.cHi = lastCHi) →
      lastCHi < v →
      subAqiLoop lastCHi v bps = .ok 501 := by
  intro bps
  induction bps with
  | nil =>
    intro _ hex _
    obtain ⟨e, he, _⟩ := hex
    cases he
  | cons b rest ih =>
    intro hall hex hv
    have hb : b.cHi < v := lt_of_le_of_lt (hall b (List.mem_cons_self b rest)) hv
    simp only [subAqiLoop]
    rw [if_neg (fun hc => absurd hc.2 (not_le.mpr hb))]
    by_cases hlast : b.cHi = lastCHi
    · rw [if_pos ⟨hb, hlast⟩]
    · rw [if_neg (fun hc => hlast hc.2)]
      refine ih (fun e he => hall e (List.mem_cons_of_mem b he)) ?_ hv
      obtain ⟨e, he, heq⟩ := hex
      rcases List.mem_cons.mp he with rfl | he2
      · exact absurd heq hlast
      · exact ⟨e, he2, heq⟩

theorem subAqiLoop_neg (lastCHi v : ℚ) (bps : List Bkpt)
    (hv : v < 0) (h : ∀ e ∈ bps, 0 ≤ e.cLo ∧ 0 ≤ e.cHi) :
    subAqiLoop lastCHi v bps = .ok 0 :=
  subAqiLoop_miss lastCHi v bps (fun e he =>
    Or.inl ⟨lt_of_lt_of_le hv (h e he).1, le_of_lt (lt_of_lt_of_le hv (h e he).2)⟩)

/-- The lowest concentration bound of a species' table
(`breakpoints[0][0]`). -/
def lowConcLo (ty : String) : ℚ :=
  (((aqi_breakpoints ty).getD []).headD ⟨0, 0, 0, 0⟩).cLo

/-- The highest concentration bound of a species' table
(`breakpoints[-1][1]`). -/
def topConcHi (ty : String) : ℚ :=
  (((aqi_breakpoints ty).getD []).getLastD ⟨0, 0, 0, 0⟩).cHi

/-- C2: for every species, a concentration strictly above the top of the
table's highest range yields the sentinel 501, and the category function
maps 501 (and every value ≥ 301) to "Hazardous". -/
theorem spec_c2_sentinel :
    (∀ ty ∈ speciesKeys, ∀ v : ℚ, topConcHi ty < v →
      calculate_sub_aqi (some v) ty = .ok 501) ∧
    get_aqi_category 501 = "Hazardous" ∧
    (∀ n : ℤ, 301 ≤ n → get_aqi_category n = "Hazardous") := by
  refine ⟨?_, rfl, ?_⟩
  · intro ty hty
    fin_cases hty <;>
    · intro v hv
      exact subAqiLoop_above _ v _ (by decide) (by decide) hv
  · intro n hn
    simp only [get_aqi_category]
    rw [if_pos (by omega)]

/-- Witness for C2: PM2.5 at 600 µg/m³ (above 500.4) gives 501, and 400
is categorised "Hazardous". -/
theorem spec_c2_sentinel_witness :
    calculate_sub_aqi (some (600 : ℚ)) "pm2_5" = .ok 501 ∧
    get_aqi_category 400 = "Hazardous" :=
  ⟨spec_c2_sentinel.1 "pm2_5" (by decide) 600 (by decide),
   spec_c2_sentinel.2.2 400 (by decide)⟩

/-- C8: for every species, a concentration strictly below the lowest
breakpoint bound (in these tables, any negative value) yields 0 rather
than an error. -/
theorem spec_c8_below :
    ∀ ty ∈ speciesKeys, ∀ v : ℚ, v < lowConcLo ty →
      calculate_sub_aqi (some v) ty = .ok 0 := by
  intro ty hty
  fin_cases hty <;>
  · intro v hv
    exact subAqiLoop_neg _ v _ (lt_of_lt_of_le hv (by decide)) (by decide)

/-- Witness for C8: PM2.5 at -1 µg/m³ gives 0. -/
theorem spec_c8_below_witness :
    calculate_sub_aqi (some (-1 : ℚ)) "pm2_5" = .ok 0 :=
  spec_c8_below "pm2_5" (by decide) (-1) (by decide)

set_option maxHeartbeats 1600000 in
/-- C10: for every species and every concentration strictly between the
`C_Hi` of one entry and the `C_Lo` of the next (a gap between consecutive
ranges), the loop falls through and returns 0 — neither an interpolated
value nor an error. -/
theorem spec_c10_gap :
    ∀ ty ∈ speciesKeys,
      ∀ p ∈ (((aqi_breakpoints ty).getD []).zip ((aqi_breakpoints ty).getD []).tail),
        ∀ v : ℚ, p.1.cHi < v → v < p.2.cLo →
          calculate_sub_aqi (some v) ty = .ok 0 := by
  intro ty hty
  fin_cases hty
  · intro p hp
    fin_cases hp <;>
    · intro v h1 h2
      norm_num at h1 h2
      show subAqiLoop (500.4 : ℚ) v ((aqi_breakpoints "pm2_5").getD []) = .ok 0
      refine subAqiLoop_miss _ v _ ?_
      intro e he
      fin_cases he <;> norm_num <;>
        first
          | exact Or.inl ⟨by linarith, by linarith⟩
          | exact Or.inr ⟨by linarith, by norm_num⟩
          | exact Or.inr (by linarith)
          | exact ⟨by linarith, by linarith⟩
          | linarith
  · intro p hp
    fin_cases hp <;>
    · intro v h1 h2
      norm_num at h1 h2
      show subAqiLoop (604 : ℚ) v ((aqi_breakpoints "pm10").getD []) = .ok 0
      refine subAqiLoop_miss _ v _ ?_
      intro e he
      fin_cases he <;> norm_num <;>
        first
          | exact Or.inl ⟨by linarith, by linarith⟩
          | exact Or.inr ⟨by linarith, by norm_num⟩
          | exact Or.inr (by linarith)
          | exact ⟨by linarith, by linarith⟩
          | linarith
  · intro p hp
    fin_cases hp <;>
    · intro v h1 h2
      norm_num at h1 h2
      show subAqiLoop (50.4 : ℚ) v ((aqi_breakpoints "carbon_monoxide").getD []) = .ok 0
      refine subAqiLoop_miss _ v _ ?_
      intro e he
      fin_cases he <;> norm_num <;>
        first
          | exact Or.inl ⟨by linarith, by linarith⟩
          | exact Or.inr ⟨by linarith, by norm_num⟩
          | exact Or.inr (by linarith)
          | exact ⟨by linarith, by linarith⟩
          | linarith
  · intro p hp
    fin_cases hp <;>
    · intro v h1 h2
      norm_num at h1 h2
      show subAqiLoop (2049 : ℚ) v ((aqi_breakpoints "nitrogen_dioxide").getD []) = .ok 0
      refine subAqiLoop_miss _ v _ ?_
      intro e he
      fin_cases he <;> norm_num <;>
        first
          | exact Or.inl ⟨by linarith, by linarith⟩
          | exact Or.inr ⟨by linarith, by norm_num⟩
          | exact Or.inr (by linarith)
          | exact ⟨by linarith, by linarith⟩
          | linarith
  · intro p hp
    fin_cases hp <;>
    · intro v h1 h2
      norm_num at h1 h2
      show subAqiLoop (1004 : ℚ) v ((aqi_breakpoints "sulphur_dioxide").getD []) = .ok 0
      refine subAqiLoop_miss _ v _ ?_
      intro e he
      fin_cases he <;> norm_num <;>
        first
          | exact Or.inl ⟨by linarith, by linarith⟩
          | exact Or.inr ⟨by linarith, by norm_num⟩
          | exact Or.inr (by linarith)
          | exact ⟨by linarith, by linarith⟩
          | linarith
  · intro p hp
    fin_cases hp <;>
    · intro v h1 h2
      norm_num at h1 h2
      show subAqiLoop (200 : ℚ) v ((aqi_breakpoints "ozone").getD []) = .ok 0
      refine subAqiLoop_miss _ v _ ?_
      intro e he
      fin_cases he <;> norm_num <;>
        first
          | exact Or.inl ⟨by linarith, by linarith⟩
          | exact Or.inr ⟨by linarith, by norm_num⟩
          | exact Or.inr (by linarith)
          | exact ⟨by linarith, by linarith⟩
          | linarith

/-- Witness for C10: PM2.5 at 12.05 µg/m³, strictly between 12.0 and
12.1, gives 0. -/
theorem spec_c10_gap_witness :
    calculate_sub_aqi (some (12.05 : ℚ)) "pm2_5" = .ok 0 :=
  spec_c10_gap "pm2_5" (by decide)
    (⟨0.0, 12.0, 0, 50⟩, ⟨12.1, 35.4, 51, 100⟩) (by decide)
    12.05 (by decide) (by decide)

/-- `convert_wind_to_compass` of get_weather2.py (lines 58-94): sixteen
lower-inclusive 22.5-degree sectors, 360 mapping to "N", and "Unknown"
for anything else. -/
def convert_wind_to_compass (wind_dir : ℚ) : String :=
  if 0 ≤ wind_dir ∧ wind_dir < 22.5 then "N"
  else if 22.5 ≤ wind_dir ∧ wind_dir < 45 then "NNE"
  else if 45 ≤ wind_dir ∧ wind_dir < 67.5 then "NE"
  else if 67.5 ≤ wind_dir ∧ wind_dir < 90 then "ENE"
  else if 90 ≤ wind_dir ∧ wind_dir < 112.5 then "E"
  else if 112.5 ≤ wind_dir ∧ wind_dir < 135 then "ESE"
  else if 135 ≤ wind_dir ∧ wind_dir < 157.5 then "SE"
  else if 157.5 ≤ wind_dir ∧ wind_dir < 180 then "SSE"
  else if 180 ≤ wind_dir ∧ wind_dir < 202.5 then "S"
  else if 202.5 ≤ wind_dir ∧ wind_dir < 225 then "SSW"
  else if 225 ≤ wind_dir ∧ wind_dir < 247.5 then "SW"
  else if 247.5 ≤ wind_dir ∧ wind_dir < 270 then "WSW"
  else if 270 ≤ wind_dir ∧ wind_dir < 292.5 then "W"
  else if 292.5 ≤ wind_dir ∧ wind_dir < 315 then "WNW"
  else if 315 ≤ wind_dir ∧ wind_dir < 337.5 then "NW"
  else if 337.5 ≤ wind_dir ∧ wind_dir < 360 then "NNW"
  else if wind_dir = 360 then "N"
  else "Unknown"

/-- `convert_wind_to_compass` of get_weather.py (lines 49-84): the same
sixteen sector tests as sequential `if` statements that each overwrite the
result variable; if no branch assigns it, the Python function raises
`UnboundLocalError`, modelled as `none`. -/
def convert_wind_to_compass_v1 (wind_dir : ℚ) : Option String :=
  let r : Option String := none
  let r := if 0 ≤ wind_dir ∧ wind_dir < 22.5 then some "N" else r
  let r := if 22.5 ≤ wind_dir ∧ wind_dir < 45 then some "NNE" else r
  let r := if 45 ≤ wind_dir ∧ wind_dir < 67.5 then some "NE" else r
  let r := if 67.5 ≤ wind_dir ∧ wind_dir < 90 then some "ENE" else r
  let r := if 90 ≤ wind_dir ∧ wind_dir < 112.5 then some "E" else r
  let r := if 112.5 ≤ wind_dir ∧ wind_dir < 135 then some "ESE" else r
  let r := if 135 ≤ wind_dir ∧ wind_dir < 157.5 then some "SE" else r
  let r := if 157.5 ≤ wind_dir ∧ wind_dir < 180 then some "SSE" else r
  let r := if 180 ≤ wind_dir ∧ wind_dir < 202.5 then some "S" else r
  let r := if 202.5 ≤ wind_dir ∧ wind_dir < 225 then some "SSW" else r
  let r := if 225 ≤ wind_dir ∧ wind_dir < 247.5 then some "SW" else r
  let r := if 247.5 ≤ wind_dir ∧ wind_dir < 270 then some "WSW" else r
  let r := if 270 ≤ wind_dir ∧ wind_dir < 292.5 then some "W" else r
  let r := if 292.5 ≤ wind_dir ∧ wind_dir < 315 then some "WNW" else r
  let r := if 315 ≤ wind_dir ∧ wind_dir < 337.5 then some "NW" else r
  let r := if 337.5 ≤ wind_dir ∧ wind_dir < 360 then some "NNW" else r
  let r := if wind_dir = 360 then some "N" else r
  r

/-- The sixteen compass labels in sector order. -/
def compassLabels : List String :=
  ["N", "NNE", "NE", "ENE", "E", "ESE", "SE", "SSE",
   "S", "SSW", "SW", "WSW", "W", "WNW", "NW", "NNW"]

theorem compass_sector_0 (d : ℚ) (ha : 0 ≤ d) (hb : d < 22.5) :
    convert_wind_to_compass d = "N" := by
  unfold convert_wind_to_compass
  rw [if_pos ⟨by linarith, by linarith⟩]

theorem compass_sector_1 (d : ℚ) (ha : 22.5 ≤ d) (hb : d < 45) :
    convert_wind_to_compass d = "NNE" := by
  unfold convert_wind_to_compass
  rw [if_neg (by rintro ⟨x1, x2⟩; linarith),
    if_pos ⟨by linarith, by linarith⟩]

theorem compass_sector_2 (d : ℚ) (ha : 45 ≤ d) (hb : d < 67.5) :
    convert_wind_to_compass d = "NE" := by
  unfold convert_wind_to_compass
  rw [if_neg (by rintro ⟨x1, x2⟩; linarith),
    if_neg (by rintro ⟨x1, x2⟩; linarith),
    if_pos ⟨by linarith, by linarith⟩]

theorem compass_sector_3 (d : ℚ) (ha : 67.5 ≤ d) (hb : d < 90) :
    convert_wind_to_compass d = "ENE" := by
  unfold convert_wind_to_compass
  rw [if_neg (by rintro ⟨x1, x2⟩; linarith),
    if_neg (by rintro ⟨x1, x2⟩; linarith),
    if_neg (by rintro ⟨x1, x2⟩; linarith),
    if_pos ⟨by linarith, by linarith⟩]

theorem compass_sector_4 (d : ℚ) (ha : 90 ≤ d) (hb : d < 112.5) :
    convert_wind_to_compass d = "E" := by
  unfold convert_wind_to_compass
  rw [if_neg (by rintro ⟨x1, x2⟩; linarith),
    if_neg (by rintro ⟨x1, x2⟩; linarith),
    if_neg (by rintro ⟨x1, x2⟩; linarith),
    if_neg (by rintro ⟨x1, x2⟩; linarith),
    if_pos ⟨by linarith, by linarith⟩]

theorem compass_sector_5 (d : ℚ) (ha : 112.5 ≤ d) (hb : d < 135) :
    convert_wind_to_compass d = "ESE" := by
  unfold convert_wind_to_compass
  rw [if_neg (by rintro ⟨x1, x2⟩; linarith),
    if_neg (by rintro ⟨x1, x2⟩; linarith),
    if_neg (by rintro ⟨x1, x2⟩; linarith),
    if_neg (by rintro ⟨x1, x2⟩; linarith),
    if_neg (by rintro ⟨x1, x2⟩; linarith),
    if_pos ⟨by linarith, by linarith⟩]

theorem compass_sector_6 (d : ℚ) (ha : 135 ≤ d) (hb : d < 157.5) :
    convert_wind_to_compass d = "SE" := by
  unfold convert_wind_to_compass
  rw [if_neg (by rintro ⟨x1, x2⟩; linarith),
    if_neg (by rintro ⟨x1, x2⟩; linarith),
    if_neg (by rintro ⟨x1, x2⟩; linarith),
    if_neg (by rintro ⟨x1, x2⟩; linarith),
    if_neg (by rintro ⟨x1, x2⟩; linarith),
    if_neg (by rintro ⟨x1, x2⟩; linarith),
    if_pos ⟨by linarith, by linarith⟩]

theorem compass_sector_7 (d : ℚ) (ha : 157.5 ≤ d) (hb : d < 180) :
    convert_wind_to_compass d = "SSE" := by
  unfold convert_wind_to_compass
  rw [if_neg (by rintro ⟨x1, x2⟩; linarith),
    if_neg (by rintro ⟨x1, x2⟩; linarith),
    if_neg (by rintro ⟨x1, x2⟩; linarith),
    if_neg (by rintro ⟨x1, x2⟩; linarith),
    if_neg (by rintro ⟨x1, x2⟩; linarith),
    if_neg (by rintro ⟨x1, x2⟩; linarith),
    if_neg (by rintro ⟨x1, x2⟩; linarith),
    if_pos ⟨by linarith, by linarith⟩]

theorem compass_sector_8 (d : ℚ) (ha : 180 ≤ d) (hb : d < 202.5) :
    convert_wind_to_compass d = "S" := by
  unfold convert_wind_to_compass
  rw [if_neg (by rintro ⟨x1, x2⟩; linarith),
    if_neg (by rintro ⟨x1, x2⟩; linarith),
    if_neg (by rintro ⟨x1, x2⟩; linarith),
    if_neg (by rintro ⟨x1, x2⟩; linarith),
    if_neg (by rintro ⟨x1, x2⟩; linarith),
    if_neg (by rintro ⟨x1, x2⟩; linarith),
    if_neg (by rintro ⟨x1, x2⟩; linarith),
    if_neg (by rintro ⟨x1, x2⟩; linarith),
    if_pos ⟨by linarith, by linarith⟩]

theorem compass_sector_9 (d : ℚ) (ha : 202.5 ≤ d) (hb : d < 225) :
    convert_wind_to_compass d = "SSW" := by
  unfold convert_wind_to_compass
  rw [if_neg (by rintro ⟨x1, x2⟩; linarith),
    if_neg (by rintro ⟨x1, x2⟩; linarith),
    if_neg (by rintro ⟨x1, x2⟩; linarith),
    if_neg (by rintro ⟨x1, x2⟩; linarith),
    if_neg (by rintro ⟨x1, x2⟩; linarith),
    if_neg (by rintro ⟨x1, x2⟩; linarith),
    if_neg (by rintro ⟨x1, x2⟩; linarith),
    if_neg (by rintro ⟨x1, x2⟩; linarith),
    if_neg (by rintro ⟨x1, x2⟩; linarith),
    if_pos ⟨by linarith, by linarith⟩]

theorem compass_sector_10 (d : ℚ) (ha : 225 ≤ d) (hb : d < 247.5) :
    convert_wind_to_compass d = "SW" := by
  unfold convert_wind_to_compass
  rw [if_neg (by rintro ⟨x1, x2⟩; linarith),
    if_neg (by rintro ⟨x1, x2⟩; linarith),
    if_neg (by rintro ⟨x1, x2⟩; linarith),
    if_neg (by rintro ⟨x1, x2⟩; linarith),
    if_neg (by rintro ⟨x1, x2⟩; linarith),
    if_neg (by rintro ⟨x1, x2⟩; linarith),
    if_neg (by rintro ⟨x1, x2⟩; linarith),
    if_neg (by rintro ⟨x1, x2⟩; linarith),
    if_neg (by rintro ⟨x1, x2⟩; linarith),
    if_neg (by rintro ⟨x1, x2⟩; linarith),
    if_pos ⟨by linarith, by linarith⟩]

theorem compass_sector_11 (d : ℚ) (ha : 247.5 ≤ d) (hb : d < 270) :
    convert_wind_to_compass d = "WSW" := by
  unfold convert_wind_to_compass
  rw [if_neg (by rintro ⟨x1, x2⟩; linarith),
    if_neg (by rintro ⟨x1, x2⟩; linarith),
    if_neg (by rintro ⟨x1, x2⟩; linarith),
    if_neg (by rintro ⟨x1, x2⟩; linarith),
    if_neg (by rintro ⟨x1, x2⟩; linarith),
    if_neg (by rintro ⟨x1, x2⟩; linarith),
    if_neg (by rintro ⟨x1, x2⟩; linarith),
    if_neg (by rintro ⟨x1, x2⟩; linarith),
    if_neg (by rintro ⟨x1, x2⟩; linarith),
    if_neg (by rintro ⟨x1, x2⟩; linarith),
    if_neg (by rintro ⟨x1, x2⟩; linarith),
    if_pos ⟨by linarith, by linarith⟩]

theorem compass_sector_12 (d : ℚ) (ha : 270 ≤ d) (hb : d < 292.5) :
    convert_wind_to_compass d = "W" := by
  unfold convert_wind_to_compass
  rw [if_neg (by rintro ⟨x1, x2⟩; linarith),
    if_neg (by rintro ⟨x1, x2⟩; linarith),
    if_neg (by rintro ⟨x1, x2⟩; linarith),
    if_neg (by rintro ⟨x1, x2⟩; linarith),
    if_neg (by rintro ⟨x1, x2⟩; linarith),
    if_neg (by rintro ⟨x1, x2⟩; linarith),
    if_neg (by rintro ⟨x1, x2⟩; linarith),
    if_neg (by rintro ⟨x1, x2⟩; linarith),
    if_neg (by rintro ⟨x1, x2⟩; linarith),
    if_neg (by rintro ⟨x1, x2⟩; linarith),
    if_neg (by rintro ⟨x1, x2⟩; linarith),
    if_neg (by rintro ⟨x1, x2⟩; linarith),
    if_pos ⟨by linarith, by linarith⟩]

theorem compass_sector_13 (d : ℚ) (ha : 292.5 ≤ d) (hb : d < 315) :
    convert_wind_to_compass d = "WNW" := by
  unfold convert_wind_to_compass
  rw [if_neg (by rintro ⟨x1, x2⟩; linarith),
    if_neg (by rintro ⟨x1, x2⟩; linarith),
    if_neg (by rintro ⟨x1, x2⟩; linarith),
    if_neg (by rintro ⟨x1, x2⟩; linarith),
    if_neg (by rintro ⟨x1, x2⟩; linarith),
    if_neg (by rintro ⟨x1, x2⟩; linarith),
    if_neg (by rintro ⟨x1, x2⟩; linarith),
    if_neg (by rintro ⟨x1, x2⟩; linarith),
    if_neg (by rintro ⟨x1, x2⟩; linarith),
    if_neg (by rintro ⟨x1, x2⟩; linarith),
    if_neg (by rintro ⟨x1, x2⟩; linarith),
    if_neg (by rintro ⟨x1, x2⟩; linarith),
    if_neg (by rintro ⟨x1, x2⟩; linarith),
    if_pos ⟨by linarith, by linarith⟩]

theorem compass_sector_14 (d : ℚ) (ha : 315 ≤ d) (hb : d < 337.5) :
    convert_wind_to_compass d = "NW" := by
  unfold convert_wind_to_compass
  rw [if_neg (by rintro ⟨x1, x2⟩; linarith),
    if_neg (by rintro ⟨x1, x2⟩; linarith),
    if_neg (by rintro ⟨x1, x2⟩; linarith),
    if_neg (by rintro ⟨x1, x2⟩; linarith),
    if_neg (by rintro ⟨x1, x2⟩; linarith),
    if_neg (by rintro ⟨x1, x2⟩; linarith),
    if_neg (by rintro ⟨x1, x2⟩; linarith),
    if_neg (by rintro ⟨x1, x2⟩; linarith),
    if_neg (by rintro ⟨x1, x2⟩; linarith),
    if_neg (by rintro ⟨x1, x2⟩; linarith),
    if_neg (by rintro ⟨x1, x2⟩; linarith),
    if_neg (by rintro ⟨x1, x2⟩; linarith),
    if_neg (by rintro ⟨x1, x2⟩; linarith),
    if_neg (by rintro ⟨x1, x2⟩; linarith),
    if_pos ⟨by linarith, by linarith⟩]

theorem compass_sector_15 (d : ℚ) (ha : 337.5 ≤ d) (hb : d < 360) :
    convert_wind_to_compass d = "NNW" := by
  unfold convert_wind_to_compass
  rw [if_neg (by rintro ⟨x1, x2⟩; linarith),
    if_neg (by rintro ⟨x1, x2⟩; linarith),
    if_neg (by rintro ⟨x1, x2⟩; linarith),
    if_neg (by rintro ⟨x1, x2⟩; linarith),
    if_neg (by rintro ⟨x1, x2⟩; linarith),
    if_neg (by rintro ⟨x1, x2⟩; linarith),
    if_neg (by rintro ⟨x1, x2⟩; linarith),
    if_neg (by rintro ⟨x1, x2⟩; linarith),
    if_neg (by rintro ⟨x1, x2⟩; linarith),
    if_neg (by rintro ⟨x1, x2⟩; linarith),
    if_neg (by rintro ⟨x1, x2⟩; linarith),
    if_neg (by rintro ⟨x1, x2⟩; linarith),
    if_neg (by rintro ⟨x1, x2⟩; linarith),
    if_neg (by rintro ⟨x1, x2⟩; linarith),
    if_neg (by rintro ⟨x1, x2⟩; linarith),
    if_pos ⟨by linarith, by linarith⟩]

theorem compass_v1_sector_0 (d : ℚ) (ha : 0 ≤ d) (hb : d < 22.5) :
    convert_wind_to_compass_v1 d = some "N" := by
  unfold convert_wind_to_compass_v1
  dsimp only
  rw [if_neg (by rintro rfl; linarith),
    if_neg (by rintro ⟨x1, x2⟩; linarith),
    if_neg (by rintro ⟨x1, x2⟩; linarith),
    if_neg (by rintro ⟨x1, x2⟩; linarith),
    if_neg (by rintro ⟨x1, x2⟩; linarith),
    if_neg (by rintro ⟨x1, x2⟩; linarith),
    if_neg (by rintro ⟨x1, x2⟩; linarith),
    if_neg (by rintro ⟨x1, x2⟩; linarith),
    if_neg (by rintro ⟨x1, x2⟩; linarith),
    if_neg (by rintro ⟨x1, x2⟩; linarith),
    if_neg (by rintro ⟨x1, x2⟩; linarith),
    if_neg (by rintro ⟨x1, x2⟩; linarith),
    if_neg (by rintro ⟨x1, x2⟩; linarith),
    if_neg (by rintro ⟨x1, x2⟩; linarith),
    if_neg (by rintro ⟨x1, x2⟩; linarith),
    if_neg (by rintro ⟨x1, x2⟩; linarith),
    if_pos ⟨by linarith, by linarith⟩]

theorem compass_v1_sector_1 (d : ℚ) (ha : 22.5 ≤ d) (hb : d < 45) :
    convert_wind_to_compass_v1 d = some "NNE" := by
  unfold convert_wind_to_compass_v1
  dsimp only
  rw [if_neg (by rintro rfl; linarith),
    if_neg (by rintro ⟨x1, x2⟩; linarith),
    if_neg (by rintro ⟨x1, x2⟩; linarith),
    if_neg (by rintro ⟨x1, x2⟩; linarith),
    if_neg (by rintro ⟨x1, x2⟩; linarith),
    if_neg (by rintro ⟨x1, x2⟩; linarith),
    if_neg (by rintro ⟨x1, x2⟩; linarith),
    if_neg (by rintro ⟨x1, x2⟩; linarith),
    if_neg (by rintro ⟨x1, x2⟩; linarith),
    if_neg (by rintro ⟨x1, x2⟩; linarith),
    if_neg (by rintro ⟨x1, x2⟩; linarith),
    if_neg (by rintro ⟨x1, x2⟩; linarith),
    if_neg (by rintro ⟨x1, x2⟩; linarith),
    if_neg (by rintro ⟨x1, x2⟩; linarith),
    if_neg (by rintro ⟨x1, x2⟩; linarith),
    if_pos ⟨by linarith, by linarith⟩]

theorem compass_v1_sector_2 (d : ℚ) (ha : 45 ≤ d) (hb : d < 67.5) :
    convert_wind_to_compass_v1 d = some "NE" := by
  unfold convert_wind_to_compass_v1
  dsimp only
  rw [if_neg (by rintro rfl; linarith),
    if_neg (by rintro ⟨x1, x2⟩; linarith),
    if_neg (by rintro ⟨x1, x2⟩; linarith),
    if_neg (by rintro ⟨x1, x2⟩; linarith),
    if_neg (by rintro ⟨x1, x2⟩; linarith),
    if_neg (by rintro ⟨x1, x2⟩; linarith),
    if_neg (by rintro ⟨x1, x2⟩; linarith),
    if_neg (by rintro ⟨x1, x2⟩; linarith),
    if_neg (by rintro ⟨x1, x2⟩; linarith),
    if_neg (by rintro ⟨x1, x2⟩; linarith),
    if_neg (by rintro ⟨x1, x2⟩; linarith),
    if_neg (by rintro ⟨x1, x2⟩; linarith),
    if_neg (by rintro ⟨x1, x2⟩; linarith),
    if_neg (by rintro ⟨x1, x2⟩; linarith),
    if_pos ⟨by linarith, by linarith⟩]

theorem compass_v1_sector_3 (d : ℚ) (ha : 67.5 ≤ d) (hb : d < 90) :
    convert_wind_to_compass_v1 d = some "ENE" := by
  unfold convert_wind_to_compass_v1
  dsimp only
  rw [if_neg (by rintro rfl; linarith),
    if_neg (by rintro ⟨x1, x2⟩; linarith),
    if_neg (by rintro ⟨x1, x2⟩; linarith),
    if_neg (by rintro ⟨x1, x2⟩; linarith),
    if_neg (by rintro ⟨x1, x2⟩; linarith),
    if_neg (by rintro ⟨x1, x2⟩; linarith),
    if_neg (by rintro ⟨x1, x2⟩; linarith),
    if_neg (by rintro ⟨x1, x2⟩; linarith),
    if_neg (by rintro ⟨x1, x2⟩; linarith),
    if_neg (by rintro ⟨x1, x2⟩; linarith),
    if_neg (by rintro ⟨x1, x2⟩; linarith),
    if_neg (by rintro ⟨x1, x2⟩; linarith),
    if_neg (by rintro ⟨x1, x2⟩; linarith),
    if_pos ⟨by linarith, by linarith⟩]

theorem compass_v1_sector_4 (d : ℚ) (ha : 90 ≤ d) (hb : d < 112.5) :
    convert_wind_to_compass_v1 d = some "E" := by
  unfold convert_wind_to_compass_v1
  dsimp only
  rw [if_neg (by rintro rfl; linarith),
    if_neg (by rintro ⟨x1, x2⟩; linarith),
    if_neg (by rintro ⟨x1, x2⟩; linarith),
    if_neg (by rintro ⟨x1, x2⟩; linarith),
    if_neg (by rintro ⟨x1, x2⟩; linarith),
    if_neg (by rintro ⟨x1, x2⟩; linarith),
    if_neg (by rintro ⟨x1, x2⟩; linarith),
    if_neg (by rintro ⟨x1, x2⟩; linarith),
    if_neg (by rintro ⟨x1, x2⟩; linarith),
    if_neg (by rintro ⟨x1, x2⟩; linarith),
    if_neg (by rintro ⟨x1, x2⟩; linarith),
    if_neg (by rintro ⟨x1, x2⟩; linarith),
    if_pos ⟨by linarith, by linarith⟩]

theorem compass_v1_sector_5 (d : ℚ) (ha : 112.5 ≤ d) (hb : d < 135) :
    convert_wind_to_compass_v1 d = some "ESE" := by
  unfold convert_wind_to_compass_v1
  dsimp only
  rw [if_neg (by rintro rfl; linarith),
    if_neg (by rintro ⟨x1, x2⟩; linarith),
    if_neg (by rintro ⟨x1, x2⟩; linarith),
    if_neg (by rintro ⟨x1, x2⟩; linarith),
    if_neg (by rintro ⟨x1, x2⟩; linarith),
    if_neg (by rintro ⟨x1, x2⟩; linarith),
    if_neg (by rintro ⟨x1, x2⟩; linarith),
    if_neg (by rintro ⟨x1, x2⟩; linarith),
    if_neg (by rintro ⟨x1, x2⟩; linarith),
    if_neg (by rintro ⟨x1, x2⟩; linarith),
    if_neg (by rintro ⟨x1, x2⟩; linarith),
    if_pos ⟨by linarith, by linarith⟩]

theorem compass_v1_sector_6 (d : ℚ) (ha : 135 ≤ d) (hb : d < 157.5) :
    convert_wind_to_compass_v1 d = some "SE" := by
  unfold convert_wind_to_compass_v1
  dsimp only
  rw [if_neg (by rintro rfl; linarith),
    if_neg (by rintro ⟨x1, x2⟩; linarith),
    if_neg (by rintro ⟨x1, x2⟩; linarith),
    if_neg (by rintro ⟨x1, x2⟩; linarith),
    if_neg (by rintro ⟨x1, x2⟩; linarith),
    if_neg (by rintro ⟨x1, x2⟩; linarith),
    if_neg (by rintro ⟨x1, x2⟩; linarith),
    if_neg (by rintro ⟨x1, x2⟩; linarith),
    if_neg (by rintro ⟨x1, x2⟩; linarith),
    if_neg (by rintro ⟨x1, x2⟩; linarith),
    if_pos ⟨by linarith, by linarith⟩]

theorem compass_v1_sector_7 (d : ℚ) (ha : 157.5 ≤ d) (hb : d < 180) :
    convert_wind_to_compass_v1 d = some "SSE" := by
  unfold convert_wind_to_compass_v1
  dsimp only
  rw [if_neg (by rintro rfl; linarith),
    if_neg (by rintro ⟨x1, x2⟩; linarith),
    if_neg (by rintro ⟨x1, x2⟩; linarith),
    if_neg (by rintro ⟨x1, x2⟩; linarith),
    if_neg (by rintro ⟨x1, x2⟩; linarith),
    if_neg (by rintro ⟨x1, x2⟩; linarith),
    if_neg (by rintro ⟨x1, x2⟩; linarith),
    if_neg (by rintro ⟨x1, x2⟩; linarith),
    if_neg (by rintro ⟨x1, x2⟩; linarith),
    if_pos ⟨by linarith, by linarith⟩]

theorem compass_v1_sector_8 (d : ℚ) (ha : 180 ≤ d) (hb : d < 202.5) :
    convert_wind_to_compass_v1 d = some "S" := by
  unfold convert_wind_to_compass_v1
  dsimp only
  rw [if_neg (by rintro rfl; linarith),
    if_neg (by rintro ⟨x1, x2⟩; linarith),
    if_neg (by rintro ⟨x1, x2⟩; linarith),
    if_neg (by rintro ⟨x1, x2⟩; linarith),
    if_neg (by rintro ⟨x1, x2⟩; linarith),
    if_neg (by rintro ⟨x1, x2⟩; linarith),
    if_neg (by rintro ⟨x1, x2⟩; linarith),
    if_neg (by rintro ⟨x1, x2⟩; linarith),
    if_pos ⟨by linarith, by linarith⟩]

theorem compass_v1_sector_9 (d : ℚ) (ha : 202.5 ≤ d) (hb : d < 225) :
    convert_wind_to_compass_v1 d = some "SSW" := by
  unfold convert_wind_to_compass_v1
  dsimp only
  rw [if_neg (by rintro rfl; linarith),
    if_neg (by rintro ⟨x1, x2⟩; linarith),
    if_neg (by rintro ⟨x1, x2⟩; linarith),
    if_neg (by rintro ⟨x1, x2⟩; linarith),
    if_neg (by rintro ⟨x1, x2⟩; linarith),
    if_neg (by rintro ⟨x1, x2⟩; linarith),
    if_neg (by rintro ⟨x1, x2⟩; linarith),
    if_pos ⟨by linarith, by linarith⟩]

theorem compass_v1_sector_10 (d : ℚ) (ha : 225 ≤ d) (hb : d < 247.5) :
    convert_wind_to_compass_v1 d = some "SW" := by
  unfold convert_wind_to_compass_v1
  dsimp only
  rw [if_neg (by rintro rfl; linarith),
    if_neg (by rintro ⟨x1, x2⟩; linarith),
    if_neg (by rintro ⟨x1, x2⟩; linarith),
    if_neg (by rintro ⟨x1, x2⟩; linarith),
    if_neg (by rintro ⟨x1, x2⟩; linarith),
    if_neg (by rintro ⟨x1, x2⟩; linarith),
    if_pos ⟨by linarith, by linarith⟩]

theorem compass_v1_sector_11 (d : ℚ) (ha : 247.5 ≤ d) (hb : d < 270) :
    convert_wind_to_compass_v1 d = some "WSW" := by
  unfold convert_wind_to_compass_v1
  dsimp only
  rw [if_neg (by rintro rfl; linarith),
    if_neg (by rintro ⟨x1, x2⟩; linarith),
    if_neg (by rintro ⟨x1, x2⟩; linarith),
    if_neg (by rintro ⟨x1, x2⟩; linarith),
    if_neg (by rintro ⟨x1, x2⟩; linarith),
    if_pos ⟨by linarith, by linarith⟩]

theorem compass_v1_sector_12 (d : ℚ) (ha : 270 ≤ d) (hb : d < 292.5) :
    convert_wind_to_compass_v1 d = some "W" := by
  unfold convert_wind_to_compass_v1
  dsimp only
  rw [if_neg (by rintro rfl; linarith),
    if_neg (by rintro ⟨x1, x2⟩; linarith),
    if_neg (by rintro ⟨x1, x2⟩; linarith),
    if_neg (by rintro ⟨x1, x2⟩; linarith),
    if_pos ⟨by linarith, by linarith⟩]

theorem compass_v1_sector_13 (d : ℚ) (ha : 292.5 ≤ d) (hb : d < 315) :
    convert_wind_to_compass_v1 d = some "WNW" := by
  unfold convert_wind_to_compass_v1
  dsimp only
  rw [if_neg (by rintro rfl; linarith),
    if_neg (by rintro ⟨x1, x2⟩; linarith),
    if_neg (by rintro ⟨x1, x2⟩; linarith),
    if_pos ⟨by linarith, by linarith⟩]

theorem compass_v1_sector_14 (d : ℚ) (ha : 315 ≤ d) (hb : d < 337.5) :
    convert_wind_to_compass_v1 d = some "NW" := by
  unfold convert_wind_to_compass_v1
  dsimp only
  rw [if_neg (by rintro rfl; linarith),
    if_neg (by rintro ⟨x1, x2⟩; linarith),
    if_pos ⟨by linarith, by linarith⟩]

theorem compass_v1_sector_15 (d : ℚ) (ha : 337.5 ≤ d) (hb : d < 360) :
    convert_wind_to_compass_v1 d = some "NNW" := by
  unfold convert_wind_to_compass_v1
  dsimp only
  rw [if_neg (by rintro rfl; linarith),
    if_pos ⟨by linarith, by linarith⟩]

/-- C7: `convert_wind_to_compass` (both script variants) maps every degree
value in [0, 360] to the compass label of its 22.5-degree-wide sector,
lower bound inclusive, with 360 mapping to "N" exactly like 0; in
particular 0 ↦ "N", 360 ↦ "N", 180 ↦ "S", 90 ↦ "E", and the boundary 22.5
↦ "NNE". -/
theorem spec_c7_compass :
    (∀ (k : Fin 16) (d : ℚ),
      22.5 * ((k : ℕ) : ℚ) ≤ d → d < 22.5 * (((k : ℕ) : ℚ) + 1) →
      convert_wind_to_compass d = compassLabels.getD (k : ℕ) "") ∧
    (∀ (k : Fin 16) (d : ℚ),
      22.5 * ((k : ℕ) : ℚ) ≤ d → d < 22.5 * (((k : ℕ) : ℚ) + 1) →
      convert_wind_to_compass_v1 d = some (compassLabels.getD (k : ℕ) "")) ∧
    convert_wind_to_compass 0 = "N" ∧
    convert_wind_to_compass 360 = "N" ∧
    convert_wind_to_compass 180 = "S" ∧
    convert_wind_to_compass 90 = "E" ∧
    convert_wind_to_compass (22.5 : ℚ) = "NNE" ∧
    convert_wind_to_compass_v1 360 = some "N" := by
  refine ⟨?_, ?_, by decide, by decide, by decide, by decide, by decide, by decide⟩
  · intro k d h1 h2
    fin_cases k
    · norm_num at h1 h2
      exact compass_sector_0 d h1 h2
    · norm_num at h1 h2
      exact compass_sector_1 d h1 h2
    · norm_num at h1 h2
      exact compass_sector_2 d h1 h2
    · norm_num at h1 h2
      exact compass_sector_3 d h1 h2
    · norm_num at h1 h2
      exact compass_sector_4 d h1 h2
    · norm_num at h1 h2
      exact compass_sector_5 d h1 h2
    · norm_num at h1 h2
      exact compass_sector_6 d h1 h2
    · norm_num at h1 h2
      exact compass_sector_7 d h1 h2
    · norm_num at h1 h2
      exact compass_sector_8 d h1 h2
    · norm_num at h1 h2
      exact compass_sector_9 d h1 h2
    · norm_num at h1 h2
      exact compass_sector_10 d h1 h2
    · norm_num at h1 h2
      exact compass_sector_11 d h1 h2
    · norm_num at h1 h2
      exact compass_sector_12 d h1 h2
    · norm_num at h1 h2
      exact compass_sector_13 d h1 h2
    · norm_num at h1 h2
      exact compass_sector_14 d h1 h2
    · norm_num at h1 h2
      exact compass_sector_15 d h1 h2
  · intro k d h1 h2
    fin_cases k
    · norm_num at h1 h2
      exact compass_v1_sector_0 d h1 h2
    · norm_num at h1 h2
      exact compass_v1_sector_1 d h1 h2
    · norm_num at h1 h2
      exact compass_v1_sector_2 d h1 h2
    · norm_num at h1 h2
      exact compass_v1_sector_3 d h1 h2
    · norm_num at h1 h2
      exact compass_v1_sector_4 d h1 h2
    · norm_num at h1 h2
      exact compass_v1_sector_5 d h1 h2
    · norm_num at h1 h2
      exact compass_v1_sector_6 d h1 h2
    · norm_num at h1 h2
      exact compass_v1_sector_7 d h1 h2
    · norm_num at h1 h2
      exact compass_v1_sector_8 d h1 h2
    · norm_num at h1 h2
      exact compass_v1_sector_9 d h1 h2
    · norm_num at h1 h2
      exact compass_v1_sector_10 d h1 h2
    · norm_num at h1 h2
      exact compass_v1_sector_11 d h1 h2
    · norm_num at h1 h2
      exact compass_v1_sector_12 d h1 h2
    · norm_num at h1 h2
      exact compass_v1_sector_13 d h1 h2
    · norm_num at h1 h2
      exact compass_v1_sector_14 d h1 h2
    · norm_num at h1 h2
      exact compass_v1_sector_15 d h1 h2

/-- Witness for C7: 30 degrees lies in sector 1 and maps to "NNE" under
both variants. -/
theorem spec_c7_compass_witness :
    convert_wind_to_compass 30 = compassLabels.getD ((1 : Fin 16) : ℕ) "" ∧
    convert_wind_to_compass_v1 30 = some (compassLabels.getD ((1 : Fin 16) : ℕ) "") :=
  ⟨spec_c7_compass.1 1 30 (by decide) (by decide),
   spec_c7_compass.2.1 1 30 (by decide) (by decide)⟩

/-- Adjacent-entry invariant of a breakpoint table: consecutive entries
ascend strictly and each entry's upper bound is immediately followed by
the next entry's lower bound at the table's resolution `st`. -/
def contiguousStep (st : ℚ) : List Bkpt → Prop
  | [] => True
  | [_] => True
  | a :: b :: rest => (a.cHi < b.cLo ∧ b.cLo = a.cHi + st) ∧ contiguousStep st (b :: rest)

instance contiguousStepDecidable (st : ℚ) : ∀ l : List Bkpt, Decidable (contiguousStep st l)
  | [] => .isTrue trivial
  | [_] => .isTrue trivial
  | a :: b :: rest =>
    have : Decidable (contiguousStep st (b :: rest)) := contiguousStepDecidable st (b :: rest)
    inferInstanceAs (Decidable (_ ∧ _))

/-- C5: every species' static breakpoint table satisfies the invariant:
each entry has `cLo ≤ cHi`, and entries are sorted ascending with each
`cHi` immediately followed by the next entry's `cLo` at the table's
resolution (0.1 for the PM2.5 and CO tables, 1 for the integer-valued
tables).  The tables are program constants, never mutated at runtime. -/
theorem spec_c5_invariant :
    (∀ e ∈ (aqi_breakpoints "pm2_5").getD [], e.cLo ≤ e.cHi) ∧
    contiguousStep (1/10) ((aqi_breakpoints "pm2_5").getD []) ∧
    (∀ e ∈ (aqi_breakpoints "pm10").getD [], e.cLo ≤ e.cHi) ∧
    contiguousStep 1 ((aqi_breakpoints "pm10").getD []) ∧
    (∀ e ∈ (aqi_breakpoints "carbon_monoxide").getD [], e.cLo ≤ e.cHi) ∧
    contiguousStep (1/10) ((aqi_breakpoints "carbon_monoxide").getD []) ∧
    (∀ e ∈ (aqi_breakpoints "nitrogen_dioxide").getD [], e.cLo ≤ e.cHi) ∧
    contiguousStep 1 ((aqi_breakpoints "nitrogen_dioxide").getD []) ∧
    (∀ e ∈ (aqi_breakpoints "sulphur_dioxide").getD [], e.cLo ≤ e.cHi) ∧
    contiguousStep 1 ((aqi_breakpoints "sulphur_dioxide").getD []) ∧
    (∀ e ∈ (aqi_breakpoints "ozone").getD [], e.cLo ≤ e.cHi) ∧
    contiguousStep 1 ((aqi_breakpoints "ozone").getD []) := by decide

/-- Witness for C5: the first PM2.5 entry has its lower bound at most its
upper bound. -/
theorem spec_c5_invariant_witness :
    (⟨0.0, 12.0, 0, 50⟩ : Bkpt).cLo ≤ (⟨0.0, 12.0, 0, 50⟩ : Bkpt).cHi :=
  spec_c5_invariant.1 ⟨0.0, 12.0, 0, 50⟩ (by decide)

/-- C6: the unit conversion applied to each present reading before table
lookup is exactly multiplication by the fixed factor of the source: CO by
0.873/1000, NO2 by 0.532, SO2 by 0.375, O3 by 0.5, while PM2.5 and PM10
are looked up unconverted; in particular a CO reading of 1000 µg/m³ is
looked up at exactly 0.873 ppm. -/
theorem spec_c6_conversions :
    (∀ c : ℚ, calculate_aqi_from_data ⟨none, some c, none, none, none, none⟩ =
      (calculate_sub_aqi (some (c * (0.873 / 1000))) "carbon_monoxide").map
        (fun n => (n, get_aqi_category n))) ∧
    (∀ c : ℚ, calculate_aqi_from_data ⟨none, none, some c, none, none, none⟩ =
      (calculate_sub_aqi (some (c * 0.532)) "nitrogen_dioxide").map
        (fun n => (n, get_aqi_category n))) ∧
    (∀ c : ℚ, calculate_aqi_from_data ⟨none, none, none, some c, none, none⟩ =
      (calculate_sub_aqi (some (c * 0.375)) "sulphur_dioxide").map
        (fun n => (n, get_aqi_category n))) ∧
    (∀ c : ℚ, calculate_aqi_from_data ⟨none, none, none, none, some c, none⟩ =
      (calculate_sub_aqi (some (c * 0.5)) "ozone").map
        (fun n => (n, get_aqi_category n))) ∧
    (∀ c : ℚ, calculate_aqi_from_data ⟨some c, none, none, none, none, none⟩ =
      (calculate_sub_aqi (some c) "pm2_5").map
        (fun n => (n, get_aqi_category n))) ∧
    (∀ c : ℚ, calculate_aqi_from_data ⟨none, none, none, none, none, some c⟩ =
      (calculate_sub_aqi (some c) "pm10").map
        (fun n => (n, get_aqi_category n))) ∧
    (1000 : ℚ) * (0.873 / 1000) = 0.873 := by
  refine ⟨?_, ?_, ?_, ?_, ?_, ?_, by norm_num⟩ <;>
  · intro c
    simp only [calculate_aqi_from_data, calculate_sub_aqi_eq_pure, ok_bind, Except.map]
    rfl

/-- Modelled from the spec: the persisted dataset semantics of
`save_combined_data` (get_weather2.py lines 279-288) and
`save_weather_data` (get_weather.py lines 137-151).  The xlsx file is a
list of rows; the pandas calls are not in the repository, so their effect
is taken from the spec: a missing file is created with a header row built
from the record's keys followed by the record's values, and an existing
file gets the record's values appended as one new row. -/
def save_combined_data (file : Option (List (List String)))
    (combined_data : List (String × String)) : List (List String) :=
  match file with
  | none => [combined_data.map Prod.fst, combined_data.map Prod.snd]
  | some rows => rows ++ [combined_data.map Prod.snd]

/-- C9: appending a record to an existing dataset keeps every prior row
unchanged and in order, adds exactly the one new row at the end, and a
missing dataset is created as a header row from the record plus the
record's row. -/
theorem spec_c9_append :
    (∀ (rows : List (List String)) (r : List (String × String)),
      save_combined_data (some rows) r = rows ++ [r.map Prod.snd] ∧
      (save_combined_data (some rows) r).take rows.length = rows ∧
      (save_combined_data (some rows) r).length = rows.length + 1 ∧
      (save_combined_data (some rows) r).getLast? = some (r.map Prod.snd)) ∧
    (∀ r : List (String × String),
      save_combined_data none r = [r.map Prod.fst, r.map Prod.snd]) := by
  refine ⟨?_, fun r => rfl⟩
  intro rows r
  refine ⟨rfl, ?_, ?_, ?_⟩
  · simp [save_combined_data]
  · simp [save_combined_data]
  · simp [save_combined_data]

